import Mathlib

/-!
A shallow embedding of the protocol-translation and streaming-relay core of
src/proxy.go: an HTTP gateway that lets OpenAI-style chat-completion clients
talk to the DeepSeek upstream API.  Pure Go functions become Lean functions;
the handler's branching becomes a function from an abstract request to an
outcome; JSON serialization presence (omitempty) becomes explicit emission
predicates; the streaming relay loop becomes a step function on a state.
-/

namespace CursorProxy

/-- The advertised client-facing model name, constant gpt4oModel of src/proxy.go. -/
def gpt4oModel : String := "gpt-4o"

/-- Constant deepseekChatModel of src/proxy.go. -/
def deepseekChatModel : String := "deepseek-chat"

/-- Constant deepseekEndpoint of src/proxy.go. -/
def deepseekEndpoint : String := "https://api.deepseek.com"

/-- A JSON value as produced by Go json.Unmarshal into an empty-interface
value: nil, string, float64, bool, array, or string-keyed map.  Numbers are
embedded as rationals (every finite float64 value is a rational; the code only
copies them).  An absent tool_choice and a JSON null both unmarshal to a nil
interface value, embedded as null. -/
inductive JsonValue where
  | null
  | str (s : String)
  | num (q : ℚ)
  | bool (b : Bool)
  | arr (elems : List JsonValue)
  | obj (fields : List (String × JsonValue))

/-- The anonymous function payload of Go ToolCall (name, arguments). -/
structure FunctionCall where
  name : String
  arguments : String
deriving DecidableEq

/-- Go struct ToolCall of src/proxy.go. -/
structure ToolCall where
  id : String
  type : String
  function : FunctionCall
deriving DecidableEq

/-- Go struct Message of src/proxy.go.  A nil ToolCalls slice is embedded as
the empty list: the code only ever takes its length and maps over it. -/
structure Message where
  role : String
  content : String
  toolCalls : List ToolCall
  toolCallID : String
  name : String
deriving DecidableEq

/-- Go struct Function of src/proxy.go (renamed: Function collides with the
Mathlib root namespace).  The parameters field is an opaque JSON payload. -/
structure FunctionDecl where
  name : String
  description : String
  parameters : JsonValue

/-- Go struct Tool of src/proxy.go. -/
structure Tool where
  type : String
  function : FunctionDecl

/-- Go struct ChatRequest of src/proxy.go.  Pointer-typed optional scalars
become Option; the untyped ToolChoice interface field becomes JsonValue. -/
structure ChatRequest where
  model : String
  messages : List Message
  stream : Bool
  functions : List FunctionDecl
  tools : List Tool
  toolChoice : JsonValue
  temperature : Option ℚ
  maxTokens : Option Int

/-- Go struct Config of src/proxy.go (the resolved upstream profile). -/
structure Config where
  endpoint : String
  model : String
  apiKey : String

/-- Go struct DeepSeekRequest of src/proxy.go.  Temperature and MaxTokens are
plain (non-pointer) fields there, zero-initialized; their json omitempty
behaviour is captured by the emission predicates below. -/
structure DeepSeekRequest where
  model : String
  messages : List Message
  stream : Bool
  temperature : ℚ
  maxTokens : Int
  tools : List Tool
  toolChoice : String

/-- Indexing a Go map built by json.Unmarshal: a missing key yields the nil
interface value.  Embeds choiceMap[k] for the map in convertToolChoice. -/
def lookupField (fields : List (String × JsonValue)) (k : String) : JsonValue :=
  match fields.find? (fun p => p.1 == k) with
  | some p => p.2
  | none => JsonValue.null

/-- The Go interface comparison choiceMap[k] == given string: true exactly when
the dynamic type is string and the values are equal. -/
def isFunctionType : JsonValue → Bool
  | JsonValue.str s => s == "function"
  | _ => false

/-- Function convertToolChoice of src/proxy.go: nil yields the empty string; a
string equal to auto or none is returned as is (any other string falls through
the map check and yields the empty string); a map whose type key holds the
string function yields auto; anything else yields the empty string. -/
def convertToolChoice : JsonValue → String
  | JsonValue.null => ""
  | JsonValue.str s => if s = "auto" then s else if s = "none" then s else ""
  | JsonValue.obj fields => if isFunctionType (lookupField fields "type") then "auto" else ""
  | _ => ""

/-- The per-element body of the loop in function convertMessages of
src/proxy.go: the message is copied, then an assistant message with at least
one tool call gets each tool call rebuilt with its type forced to function
(id and function payload preserved), and a message with role function gets its
role rewritten to tool.  The two conditions are tested on the original
message, as in the source. -/
def convertMessage (msg : Message) : Message :=
  let c := msg
  let c :=
    if msg.role = "assistant" ∧ 0 < msg.toolCalls.length then
      { c with toolCalls := msg.toolCalls.map (fun tc => { tc with type := "function" }) }
    else c
  if msg.role = "function" then { c with role := "tool" } else c

/-- Function convertMessages of src/proxy.go: builds an output list of the same
length, element i converted from element i. -/
def convertMessages (messages : List Message) : List Message :=
  messages.map convertMessage

/-- The DeepSeekRequest construction of proxyHandler (src/proxy.go lines
421-458): model forced to the configured model, messages converted, stream
copied; Temperature and MaxTokens copied from the pointer fields when non-nil
onto the zero-initialized struct (so absent means zero); Tools copied when
non-empty, else legacy Functions lifted into tools; ToolChoice assigned from
convertToolChoice only inside those two branches and only when non-empty. -/
def buildDeepSeekRequest (cfg : Config) (c : ChatRequest) : DeepSeekRequest :=
  let base : DeepSeekRequest :=
    { model := cfg.model
      messages := convertMessages c.messages
      stream := c.stream
      temperature := c.temperature.getD 0
      maxTokens := c.maxTokens.getD 0
      tools := []
      toolChoice := "" }
  if 0 < c.tools.length then
    let withTools := { base with tools := c.tools }
    let tc := convertToolChoice c.toolChoice
    if tc ≠ "" then { withTools with toolChoice := tc } else withTools
  else if 0 < c.functions.length then
    let withTools := { base with tools := c.functions.map (fun fn => { type := "function", function := fn }) }
    let tc := convertToolChoice c.toolChoice
    if tc ≠ "" then { withTools with toolChoice := tc } else withTools
  else base

/-- Whether the temperature attribute appears in the serialized upstream JSON:
the field carries json omitempty on a plain float64, so it is emitted exactly
when non-zero. -/
def temperatureEmitted (d : DeepSeekRequest) : Bool :=
  d.temperature != 0

/-- Whether the max_tokens attribute appears in the serialized upstream JSON
(omitempty on a plain int: emitted exactly when non-zero). -/
def maxTokensEmitted (d : DeepSeekRequest) : Bool :=
  d.maxTokens != 0

/-- The tool_choice attribute of the serialized upstream JSON: omitempty on a
string omits the empty string, otherwise the string itself is emitted. -/
def emittedToolChoice (d : DeepSeekRequest) : Option String :=
  if d.toolChoice = "" then none else some d.toolChoice

/-- Modelled from the spec: the tool-choice collapsing table of section 4.1
(nil means omitted; the strings auto and none pass through unchanged; an
object shaped with type function collapses to auto; any other shape yields no
tool-choice emitted).  Stated as the emitted attribute (none means omitted),
for comparison with the code's behaviour. -/
def specToolChoiceCollapse : JsonValue → Option String
  | JsonValue.null => none
  | JsonValue.str s => if s = "auto" ∨ s = "none" then some s else none
  | JsonValue.obj fields => if isFunctionType (lookupField fields "type") then some "auto" else none
  | _ => none

/-- Go strings.HasPrefix, via the character lists (structurally recursive so
that concrete instances evaluate). -/
def strStarts (p s : String) : Bool :=
  p.toList.isPrefixOf s.toList

/-- Go strings.TrimPrefix once the prefix is known present: dropping the
prefix's characters. -/
def strDrop (s : String) (n : Nat) : String :=
  String.mk (s.toList.drop n)

/-- An inbound HTTP request as proxyHandler observes it: method, URL path, the
Authorization header, and the result of json.Unmarshal on the (buffered) body,
none meaning the body does not parse as a ChatRequest.  The body-read I/O
failure branch and the query string are elided. -/
structure HttpRequest where
  method : String
  path : String
  authHeader : String
  body : Option ChatRequest

/-- The client-visible outcome proxyHandler commits to before any upstream
I/O happens: the CORS-only preflight return, an error response written by
http.Error (status and body), the static models list, or dispatching the
translated request upstream. -/
inductive Outcome where
  | corsPreflight
  | errorResponse (status : Nat) (body : String)
  | modelsList
  | forwardUpstream (req : DeepSeekRequest)

/-- The status code of an outcome written by http.Error, if any. -/
def Outcome.statusCode : Outcome → Option Nat
  | Outcome.errorResponse s _ => some s
  | _ => none

/-- Whether an outcome dispatches a translated request upstream. -/
def Outcome.isForward : Outcome → Bool
  | Outcome.forwardUpstream _ => true
  | _ => false

/-- The request-validation and translation phase of proxyHandler (src/proxy.go
lines 328-478), in source order: OPTIONS short-circuits to CORS; a missing
Bearer prefix or a key mismatch yields 401; GET on the models path yields the
static list; an unparseable body yields 400 (http.Error appends a newline to
each message); a parseable POST to the models path yields the static list; a
path outside the /v1/ prefix yields 404; a model other than gpt-4o yields 400
naming both models; otherwise the model is rewritten to the configured one and
the translated DeepSeekRequest is dispatched upstream. -/
def proxyHandlerCore (cfg : Config) (r : HttpRequest) : Outcome :=
  if r.method = "OPTIONS" then Outcome.corsPreflight
  else if !(strStarts "Bearer " r.authHeader) then
    Outcome.errorResponse 401 "Missing or invalid Authorization header\n"
  else if strDrop r.authHeader 7 ≠ cfg.apiKey then
    Outcome.errorResponse 401 "Invalid API key\n"
  else if r.path = "/v1/models" ∧ r.method = "GET" then Outcome.modelsList
  else
    match r.body with
    | none => Outcome.errorResponse 400 "Invalid JSON\n"
    | some chatReq =>
      if r.path = "/v1/models" then Outcome.modelsList
      else if !(strStarts "/v1/" r.path) then Outcome.errorResponse 404 "Not found\n"
      else if chatReq.model = gpt4oModel then
        Outcome.forwardUpstream (buildDeepSeekRequest cfg { chatReq with model := cfg.model })
      else
        Outcome.errorResponse 400 ("Model " ++ chatReq.model ++ " not supported. Use " ++ gpt4oModel ++ " instead.\n")

/-- An HTTP response surface: status, header map (unique keys, as in Go's
http.Header), and the body bytes as a string. -/
structure HttpResponse where
  status : Nat
  headers : List (String × List String)
  body : String
deriving DecidableEq

/-- Removing a key from a header map (helper for map assignment). -/
def removeHeader : List (String × List String) → String → List (String × List String)
  | [], _ => []
  | p :: rest, k => if p.1 = k then removeHeader rest k else p :: removeHeader rest k

/-- Go header-map assignment (replace the entry for a key, as both the indexed
assignment and Set do on http.Header). -/
def setHeader (hs : List (String × List String)) (k : String) (vs : List String) :
    List (String × List String) :=
  removeHeader hs k ++ [(k, vs)]

/-- Header lookup (Go map indexing; keys are unique in an http.Header map). -/
def getHeader : List (String × List String) → String → Option (List String)
  | [], _ => none
  | p :: rest, k => if p.1 = k then some p.2 else getHeader rest k

/-- The hop-by-hop and length/encoding header names the source's copyHeaders
skips when copying the inbound request headers upstream. -/
def skipHeaders : List String :=
  ["Content-Length", "Content-Encoding", "Transfer-Encoding", "Connection"]

/-- The upstream-error branch of proxyHandler (src/proxy.go lines 522-538):
the loop copies every upstream header verbatim into the client response,
Content-Type is then overwritten to application/json, the upstream status code
is written through, and the body bytes already read are written unchanged. -/
def forwardErrorResponse (resp : HttpResponse) : HttpResponse :=
  { status := resp.status
    headers := setHeader resp.headers "Content-Type" ["application/json"]
    body := resp.body }

/-- How proxyHandler routes an upstream reply after the call returns. -/
inductive UpstreamHandling where
  | errorForward (resp : HttpResponse)
  | streaming
  | regular
deriving DecidableEq

/-- The response-routing of proxyHandler (src/proxy.go lines 522-548): status
at least 400 forwards the error verbatim; otherwise a streaming request goes
to handleStreamingResponse and anything else to handleRegularResponse. -/
def dispatchUpstreamResponse (stream : Bool) (resp : HttpResponse) : UpstreamHandling :=
  if 400 ≤ resp.status then UpstreamHandling.errorForward (forwardErrorResponse resp)
  else if stream then UpstreamHandling.streaming
  else UpstreamHandling.regular

/-- One choice of a (non-streaming) chat-completion reply, as parsed by
handleRegularResponse. -/
structure Choice where
  index : Int
  message : Message
  finishReason : String
deriving DecidableEq

/-- The usage block of a chat-completion reply. -/
structure Usage where
  promptTokens : Int
  completionTokens : Int
  totalTokens : Int
deriving DecidableEq

/-- The parsed shape shared by the upstream reply and the client-facing reply
in handleRegularResponse (the two anonymous Go structs are identical). -/
structure ChatCompletionResponse where
  id : String
  object : String
  created : Int
  model : String
  choices : List Choice
  usage : Usage
deriving DecidableEq

/-- The per-choice translation of handleRegularResponse (src/proxy.go lines
698-720): the output choice starts as a verbatim copy of the upstream choice,
message included, so its tool-call list starts as the original list; when that
list is non-empty the loop then appends to it every tool call whose function
name is non-empty (the empty-named ones are skipped by the append loop but
remain in the copied list). -/
def translateChoice (choice : Choice) : Choice :=
  if 0 < choice.message.toolCalls.length then
    { choice with
      message :=
        { choice.message with
          toolCalls :=
            choice.message.toolCalls ++
              choice.message.toolCalls.filter (fun tc => tc.function.name != "") } }
  else choice

/-- Function handleRegularResponse of src/proxy.go (lines 662-733), from the
parsed upstream reply to the client-facing reply: id, created and usage are
copied, object is set to the chat.completion literal, model is overwritten
with the advertised client-facing name, and each choice is translated in
order. -/
def handleRegularResponse (resp : ChatCompletionResponse) : ChatCompletionResponse :=
  { id := resp.id
    object := "chat.completion"
    created := resp.created
    model := gpt4oModel
    choices := resp.choices.map translateChoice
    usage := resp.usage }

/-- The relay's lifecycle phase: the read loop is running, or it has returned. -/
inductive Phase where
  | active
  | closed
deriving DecidableEq

/-- The state of the relay read loop of handleStreamingResponse: the upstream
lines not yet read (the empty list meaning the body is at clean end-of-stream,
so every further ReadBytes returns io.EOF), the lines written to the client so
far, the loop phase, and whether the shared context has been cancelled. -/
structure RelayState where
  pending : List String
  output : List String
  phase : Phase
  cancelled : Bool
deriving DecidableEq

/-- One iteration of the relay read loop of handleStreamingResponse
(src/proxy.go lines 591-627): a cancelled context returns (closing the loop);
otherwise the loop reads a line; io.EOF executes continue, leaving the state
unchanged and the loop active; a whitespace-only line is skipped; any other
line is written through to the client.  Client writes are assumed to succeed
(the write-error branch cancels, a case the claims here do not exercise). -/
def relayStep (s : RelayState) : RelayState :=
  match s.phase with
  | Phase.closed => s
  | Phase.active =>
    if s.cancelled then { s with phase := Phase.closed }
    else
      match s.pending with
      | [] => s
      | line :: rest =>
        if line.trim = "" then { s with pending := rest }
        else { s with pending := rest, output := s.output ++ [line] }

/-- A write to the shared client connection, split into its begin and end:
w.Write on a network connection is not atomic, so another goroutine's write
may land between the two halves unless the writers are serialized. -/
inductive StreamWriteEvent where
  | hbStart
  | hbEnd
  | lineStart (i : Nat)
  | lineEnd (i : Nat)
deriving DecidableEq

/-- The write events of one heartbeat tick: the single w.Write of the
heartbeat comment in the heartbeat goroutine of handleStreamingResponse
(src/proxy.go lines 570-589). -/
def heartbeatEvents : List StreamWriteEvent :=
  [StreamWriteEvent.hbStart, StreamWriteEvent.hbEnd]

/-- The write events of the relay loop forwarding k payload lines, one
w.Write per line (src/proxy.go line 613). -/
def lineWriteEvents (k : Nat) : List StreamWriteEvent :=
  (List.range k).foldr
    (fun i acc => StreamWriteEvent.lineStart i :: StreamWriteEvent.lineEnd i :: acc) []

/-- Merge helper, structurally recursive on a fuel argument (instantiated to
the total length, which the recursion never exceeds). -/
def interleavingsAux : Nat → List StreamWriteEvent → List StreamWriteEvent →
    List (List StreamWriteEvent)
  | _, [], ys => [ys]
  | _, xs, [] => [xs]
  | 0, xs, ys => [xs ++ ys]
  | Nat.succ n, x :: xs', y :: ys' =>
    (interleavingsAux n xs' (y :: ys')).map (fun t => x :: t) ++
      (interleavingsAux n (x :: xs') ys').map (fun t => y :: t)

/-- All interleavings of two event sequences that preserve each sequence's
own order.  handleStreamingResponse runs its heartbeat goroutine and its relay
loop with no lock or other mutual exclusion around their writes, so the Go
scheduler may realize any element of this set. -/
def interleavings (xs ys : List StreamWriteEvent) : List (List StreamWriteEvent) :=
  interleavingsAux (xs.length + ys.length) xs ys

/-- Scans a schedule tracking whether a line write or a heartbeat write is in
flight; reports true when a write of one kind begins while a write of the
other kind is still in flight. -/
def overlapScan : List StreamWriteEvent → Bool → Bool → Bool
  | [], _, _ => false
  | StreamWriteEvent.lineStart _ :: rest, _, inHb => inHb || overlapScan rest true inHb
  | StreamWriteEvent.lineEnd _ :: rest, _, inHb => overlapScan rest false inHb
  | StreamWriteEvent.hbStart :: rest, inLine, _ => inLine || overlapScan rest inLine true
  | StreamWriteEvent.hbEnd :: rest, inLine, _ => overlapScan rest inLine false

/-- Whether a schedule of write events violates mutual exclusion of the two
writers, i.e. one write lands inside another. -/
def violatesExclusion (t : List StreamWriteEvent) : Bool :=
  overlapScan t false false

/-- A config with the chat profile's endpoint and model and a sample key,
used as the concrete profile of the example inputs. -/
def exampleConfig : Config :=
  { endpoint := deepseekEndpoint, model := deepseekChatModel, apiKey := "k" }

/-- A tool call with a non-empty function name. -/
def tcF : ToolCall :=
  { id := "call-1", type := "function", function := { name := "get_weather", arguments := "city=Paris" } }

/-- A tool call whose function name is the empty string. -/
def tcE : ToolCall :=
  { id := "call-2", type := "function", function := { name := "", arguments := "" } }

/-- An upstream reply with one choice carrying one non-empty-named tool call. -/
def dsResp1 : ChatCompletionResponse :=
  { id := "r1", object := "chat.completion", created := 1, model := "deepseek-chat"
    choices :=
      [{ index := 0
         message := { role := "assistant", content := "", toolCalls := [tcF], toolCallID := "", name := "" }
         finishReason := "tool_calls" }]
    usage := { promptTokens := 1, completionTokens := 1, totalTokens := 2 } }

/-- An upstream reply with one choice whose only tool call has an empty name. -/
def dsResp2 : ChatCompletionResponse :=
  { id := "r2", object := "chat.completion", created := 2, model := "deepseek-chat"
    choices :=
      [{ index := 0
         message := { role := "assistant", content := "", toolCalls := [tcE], toolCallID := "", name := "" }
         finishReason := "tool_calls" }]
    usage := { promptTokens := 1, completionTokens := 1, totalTokens := 2 } }

/-- A chat request that is present-with-zero on temperature. -/
def c4x : ChatRequest :=
  { model := "gpt-4o", messages := [], stream := false, functions := [], tools := []
    toolChoice := JsonValue.null, temperature := some 0, maxTokens := none }

/-- A chat request with a present non-zero temperature. -/
def c4w : ChatRequest :=
  { model := "gpt-4o", messages := [], stream := false, functions := [], tools := []
    toolChoice := JsonValue.null, temperature := some 2, maxTokens := none }

/-- A chat request with tool_choice auto but neither tools nor functions. -/
def c5bad : ChatRequest :=
  { model := "gpt-4o", messages := [], stream := false, functions := [], tools := []
    toolChoice := JsonValue.str "auto", temperature := none, maxTokens := none }

/-- A chat request with one tool and an object-shaped tool_choice naming a
specific function. -/
def c5w : ChatRequest :=
  { model := "gpt-4o", messages := [], stream := false, functions := []
    tools := [{ type := "function", function := { name := "f", description := "d", parameters := JsonValue.null } }]
    toolChoice := JsonValue.obj [("type", JsonValue.str "function")]
    temperature := none, maxTokens := none }

/-- A parseable chat request asking for an unsupported model. -/
def c6body : ChatRequest :=
  { model := "llama", messages := [], stream := false, functions := [], tools := []
    toolChoice := JsonValue.null, temperature := none, maxTokens := none }

/-- An authorized chat-completions request carrying c6body. -/
def r6 : HttpRequest :=
  { method := "POST", path := "/v1/chat/completions", authHeader := "Bearer k", body := some c6body }

/-- An authorized request off the /v1/ prefix whose body does not parse. -/
def r8bad : HttpRequest :=
  { method := "POST", path := "/status", authHeader := "Bearer k", body := none }

/-- An authorized request off the /v1/ prefix with a parseable body. -/
def r8w : HttpRequest :=
  { method := "POST", path := "/api/generate", authHeader := "Bearer k", body := some c6body }

/-- An upstream error reply carrying a hop-by-hop header. -/
def respX7 : HttpResponse :=
  { status := 429
    headers := [("Connection", ["keep-alive"]), ("Content-Type", ["text/plain"])]
    body := "rate limited" }

/-- An upstream error reply with an ordinary header. -/
def respW7 : HttpResponse :=
  { status := 502, headers := [("X-Request-Id", ["abc"])], body := "bad gateway" }

/-- A user message (neither role function nor assistant-with-tool-calls). -/
def mUser : Message :=
  { role := "user", content := "hi", toolCalls := [], toolCallID := "", name := "" }

/-- A function-role message. -/
def mFunc : Message :=
  { role := "function", content := "out", toolCalls := [], toolCallID := "id1", name := "f" }

theorem buildDeepSeekRequest_temperature (cfg : Config) (c : ChatRequest) :
    (buildDeepSeekRequest cfg c).temperature = c.temperature.getD 0 := by
  unfold buildDeepSeekRequest
  dsimp only
  repeat' split
  all_goals rfl

theorem buildDeepSeekRequest_maxTokens (cfg : Config) (c : ChatRequest) :
    (buildDeepSeekRequest cfg c).maxTokens = c.maxTokens.getD 0 := by
  unfold buildDeepSeekRequest
  dsimp only
  repeat' split
  all_goals rfl

theorem buildDeepSeekRequest_toolChoice (cfg : Config) (c : ChatRequest)
    (h : 0 < c.tools.length ∨ 0 < c.functions.length) :
    (buildDeepSeekRequest cfg c).toolChoice = convertToolChoice c.toolChoice := by
  unfold buildDeepSeekRequest
  by_cases ht : 0 < c.tools.length
  · simp only [ht, if_true]
    split
    · rfl
    · next hne => exact (not_ne_iff.mp hne).symm
  · have hf : 0 < c.functions.length := h.resolve_left ht
    simp only [ht, hf, if_true, if_false]
    split
    · rfl
    · next hne => exact (not_ne_iff.mp hne).symm

theorem specToolChoiceCollapse_eq_code (v : JsonValue) :
    specToolChoiceCollapse v =
      if convertToolChoice v = "" then none else some (convertToolChoice v) := by
  cases v with
  | null => rfl
  | num q => rfl
  | bool b => rfl
  | arr elems => rfl
  | str s =>
    by_cases ha : s = "auto"
    · subst ha; decide
    · by_cases hn : s = "none"
      · subst hn; decide
      · simp [specToolChoiceCollapse, convertToolChoice, ha, hn]
  | obj fields =>
    by_cases hf : isFunctionType (lookupField fields "type")
    · simp [specToolChoiceCollapse, convertToolChoice, hf]
    · simp [specToolChoiceCollapse, convertToolChoice, hf]

theorem getHeader_setHeader_self (hs : List (String × List String)) (k : String)
    (vs : List String) :
    getHeader (setHeader hs k vs) k = some vs := by
  induction hs with
  | nil => simp [setHeader, removeHeader, getHeader]
  | cons p t ih =>
    by_cases hp : p.1 = k
    · simpa [setHeader, removeHeader, getHeader, hp] using ih
    · simpa [setHeader, removeHeader, getHeader, hp] using ih

theorem getHeader_setHeader_other (hs : List (String × List String)) (k k' : String)
    (vs : List String) (hne : k ≠ k') :
    getHeader (setHeader hs k' vs) k = getHeader hs k := by
  induction hs with
  | nil => simp [setHeader, removeHeader, getHeader, Ne.symm hne]
  | cons p t ih =>
    by_cases hp : p.1 = k'
    · have hpk : ¬(k' = k) := Ne.symm hne
      simpa [setHeader, removeHeader, getHeader, hp, hpk] using ih
    · by_cases hpk : p.1 = k
      · simp [setHeader, removeHeader, getHeader, hp, hpk, hne]
      · simpa [setHeader, removeHeader, getHeader, hp, hpk] using ih

/-- C1: Refuted on the code.  For a non-streaming upstream reply whose single
choice carries one tool call with a non-empty function name, response
translation keeps the choice count, order and model name but emits the tool
call twice: the output message starts as a verbatim copy of the upstream
message (original tool-call list included) and the filter loop then appends
the same call again, so it does not appear exactly once as claimed. -/
theorem C1_tool_call_duplicated :
    (handleRegularResponse dsResp1).model = gpt4oModel ∧
    (handleRegularResponse dsResp1).choices.length = dsResp1.choices.length ∧
    dsResp1.choices.map (fun ch => ch.message.toolCalls) = [[tcF]] ∧
    (handleRegularResponse dsResp1).choices.map (fun ch => ch.message.toolCalls) = [[tcF, tcF]] := by
  decide

/-- C2: Refuted on the code.  A tool call whose function name is the empty
string is NOT absent from the translated output: the copied message retains
the original tool-call list, so a choice whose only tool call has an empty
name is emitted with that call still present (a one-element list, not the
claimed empty list). -/
theorem C2_empty_named_tool_call_retained :
    tcE.function.name = "" ∧
    (handleRegularResponse dsResp2).choices.length = 1 ∧
    (handleRegularResponse dsResp2).choices.map (fun ch => ch.message.toolCalls) = [[tcE]] := by
  decide

/-- C3: Refuted on the code.  Once the upstream body reaches clean
end-of-stream (no pending lines) with the client still connected, every
further iteration of the relay read loop hits the io.EOF continue branch and
leaves the state unchanged: after any number of iterations the relay is still
Active, never Closed, and the loop keeps re-reading instead of terminating. -/
theorem C3_relay_spins_on_clean_eof (n : Nat) (out : List String) :
    (relayStep^[n]
        { pending := [], output := out, phase := Phase.active, cancelled := false }).phase =
      Phase.active ∧
    relayStep^[n] { pending := [], output := out, phase := Phase.active, cancelled := false } =
      { pending := [], output := out, phase := Phase.active, cancelled := false } := by
  have h :
      relayStep^[n] { pending := [], output := out, phase := Phase.active, cancelled := false } =
        { pending := [], output := out, phase := Phase.active, cancelled := false } :=
    Function.iterate_fixed rfl n
  exact ⟨by rw [h], h⟩

/-- Witness for C3 at a concrete iteration count and forwarded output. -/
theorem C3_relay_spins_on_clean_eof_witness :
    (relayStep^[3]
        { pending := [], output := ["data: done\n"], phase := Phase.active, cancelled := false }).phase =
      Phase.active ∧
    relayStep^[3]
        { pending := [], output := ["data: done\n"], phase := Phase.active, cancelled := false } =
      { pending := [], output := ["data: done\n"], phase := Phase.active, cancelled := false } :=
  C3_relay_spins_on_clean_eof 3 ["data: done\n"]

/-- C4 counterexample: the request carries temperature zero, so the attribute
is present on the input, yet the serialized upstream request omits it (Go
omitempty on a plain float64 drops the zero value), refuting the claimed
present-iff-emitted equivalence. -/
theorem C4_counterexample :
    c4x.temperature.isSome = true ∧
    temperatureEmitted (buildDeepSeekRequest exampleConfig c4x) = false := by
  decide

/-- C4 (amended): temperature and max_tokens are copied onto the upstream
request when present and default to zero when absent, and each appears in the
serialized upstream JSON exactly when it is present on the input with a
non-zero value; in particular an absent field is never emitted, so the
upstream request never gains an attribute the client did not specify. -/
theorem C4_optional_scalars (cfg : Config) (c : ChatRequest) :
    (buildDeepSeekRequest cfg c).temperature = c.temperature.getD 0 ∧
    (buildDeepSeekRequest cfg c).maxTokens = c.maxTokens.getD 0 ∧
    (temperatureEmitted (buildDeepSeekRequest cfg c) = true ↔
      ∃ t, c.temperature = some t ∧ t ≠ 0) ∧
    (maxTokensEmitted (buildDeepSeekRequest cfg c) = true ↔
      ∃ m, c.maxTokens = some m ∧ m ≠ 0) := by
  refine ⟨buildDeepSeekRequest_temperature cfg c, buildDeepSeekRequest_maxTokens cfg c, ?_, ?_⟩
  · simp only [temperatureEmitted, buildDeepSeekRequest_temperature cfg c, bne_iff_ne, ne_eq]
    cases c.temperature with
    | none => simp
    | some t => simp
  · simp only [maxTokensEmitted, buildDeepSeekRequest_maxTokens cfg c, bne_iff_ne, ne_eq]
    cases c.maxTokens with
    | none => simp
    | some m => simp

/-- Witness for C4 at a concrete request with a present non-zero temperature. -/
theorem C4_optional_scalars_witness :
    (buildDeepSeekRequest exampleConfig c4w).temperature = c4w.temperature.getD 0 ∧
    (buildDeepSeekRequest exampleConfig c4w).maxTokens = c4w.maxTokens.getD 0 ∧
    (temperatureEmitted (buildDeepSeekRequest exampleConfig c4w) = true ↔
      ∃ t, c4w.temperature = some t ∧ t ≠ 0) ∧
    (maxTokensEmitted (buildDeepSeekRequest exampleConfig c4w) = true ↔
      ∃ m, c4w.maxTokens = some m ∧ m ≠ 0) :=
  C4_optional_scalars exampleConfig c4w

/-- C5 counterexample: a request whose tool_choice is the string auto but
which carries neither tools nor functions; the claimed collapsing map says the
auto string passes through, yet the code emits no tool_choice at all because
convertToolChoice is only consulted inside the tools/functions branches. -/
theorem C5_counterexample :
    specToolChoiceCollapse c5bad.toolChoice = some "auto" ∧
    emittedToolChoice (buildDeepSeekRequest exampleConfig c5bad) = none := by
  decide

/-- C5 (amended): for every inbound chat request that carries a non-empty
tools list or a non-empty legacy functions list, the tool_choice attribute of
the serialized upstream request follows the collapsing table exactly:
nil omitted, auto and none passed through, an object typed function collapsed
to auto, anything else omitted without error. -/
theorem C5_tool_choice_collapse (cfg : Config) (c : ChatRequest)
    (h : 0 < c.tools.length ∨ 0 < c.functions.length) :
    emittedToolChoice (buildDeepSeekRequest cfg c) = specToolChoiceCollapse c.toolChoice := by
  have ht := buildDeepSeekRequest_toolChoice cfg c h
  rw [specToolChoiceCollapse_eq_code]
  simp only [emittedToolChoice, ht]

/-- Witness for C5 at a request carrying one tool and an object-shaped
tool_choice naming a specific function. -/
theorem C5_tool_choice_collapse_witness :
    emittedToolChoice (buildDeepSeekRequest exampleConfig c5w) =
      specToolChoiceCollapse c5w.toolChoice :=
  C5_tool_choice_collapse exampleConfig c5w (Or.inl (by decide))

/-- C6: an authorized, parseable chat request off the models path whose model
is not the advertised gpt-4o name is answered with status 400, a body naming
both the rejected and the accepted model, and is not forwarded upstream. -/
theorem C6_unsupported_model_rejected (cfg : Config) (r : HttpRequest) (c : ChatRequest)
    (hm : r.method ≠ "OPTIONS")
    (ha1 : strStarts "Bearer " r.authHeader = true)
    (ha2 : strDrop r.authHeader 7 = cfg.apiKey)
    (hb : r.body = some c)
    (hp : strStarts "/v1/" r.path = true)
    (hnm : r.path ≠ "/v1/models")
    (hmodel : c.model ≠ gpt4oModel) :
    proxyHandlerCore cfg r =
      Outcome.errorResponse 400
        ("Model " ++ c.model ++ " not supported. Use " ++ gpt4oModel ++ " instead.\n") ∧
    (∃ pre post,
      "Model " ++ c.model ++ " not supported. Use " ++ gpt4oModel ++ " instead.\n" =
        pre ++ c.model ++ post) ∧
    (∃ pre post,
      "Model " ++ c.model ++ " not supported. Use " ++ gpt4oModel ++ " instead.\n" =
        pre ++ gpt4oModel ++ post) ∧
    Outcome.isForward (proxyHandlerCore cfg r) = false := by
  have hout : proxyHandlerCore cfg r =
      Outcome.errorResponse 400
        ("Model " ++ c.model ++ " not supported. Use " ++ gpt4oModel ++ " instead.\n") := by
    simp [proxyHandlerCore, hm, ha1, ha2, hb, hp, hnm, hmodel]
  refine ⟨hout, ?_, ?_, by rw [hout]; rfl⟩
  · exact ⟨"Model ", " not supported. Use " ++ gpt4oModel ++ " instead.\n",
      by simp [String.append_assoc]⟩
  · exact ⟨"Model " ++ c.model ++ " not supported. Use ", " instead.\n", rfl⟩

/-- Witness for C6 at a concrete authorized request asking for model llama. -/
theorem C6_unsupported_model_rejected_witness :
    proxyHandlerCore exampleConfig r6 =
      Outcome.errorResponse 400
        ("Model " ++ c6body.model ++ " not supported. Use " ++ gpt4oModel ++ " instead.\n") ∧
    (∃ pre post,
      "Model " ++ c6body.model ++ " not supported. Use " ++ gpt4oModel ++ " instead.\n" =
        pre ++ c6body.model ++ post) ∧
    (∃ pre post,
      "Model " ++ c6body.model ++ " not supported. Use " ++ gpt4oModel ++ " instead.\n" =
        pre ++ gpt4oModel ++ post) ∧
    Outcome.isForward (proxyHandlerCore exampleConfig r6) = false :=
  C6_unsupported_model_rejected exampleConfig r6 c6body (by decide) (by decide) (by decide)
    rfl (by decide) (by decide) (by decide)

/-- C7 counterexample: an upstream 429 reply carrying the hop-by-hop header
Connection (one of the names the source's own copyHeaders skip-list treats as
hop-by-hop); the error-forwarding branch copies it to the client verbatim, so
the headers are not copied minus hop-by-hop headers as claimed. -/
theorem C7_counterexample :
    (forwardErrorResponse respX7).status = 429 ∧
    (forwardErrorResponse respX7).body = respX7.body ∧
    "Connection" ∈ skipHeaders ∧
    getHeader (forwardErrorResponse respX7).headers "Connection" = some ["keep-alive"] := by
  decide

/-- C7 (amended): every upstream reply with status at least 400 is routed to
the error-forwarding branch, which forwards the status unchanged and the body
byte-identical with no translation, copies every upstream header verbatim
(hop-by-hop ones included), and then overwrites Content-Type with
application/json. -/
theorem C7_error_forwarded_verbatim (stream : Bool) (resp : HttpResponse)
    (h : 400 ≤ resp.status) :
    dispatchUpstreamResponse stream resp =
      UpstreamHandling.errorForward (forwardErrorResponse resp) ∧
    (forwardErrorResponse resp).status = resp.status ∧
    (forwardErrorResponse resp).body = resp.body ∧
    getHeader (forwardErrorResponse resp).headers "Content-Type" = some ["application/json"] ∧
    ∀ k, k ≠ "Content-Type" →
      getHeader (forwardErrorResponse resp).headers k = getHeader resp.headers k := by
  refine ⟨by simp [dispatchUpstreamResponse, h], rfl, rfl,
    getHeader_setHeader_self resp.headers "Content-Type" ["application/json"],
    fun k hk => getHeader_setHeader_other resp.headers k "Content-Type" ["application/json"] hk⟩

/-- Witness for C7 at a concrete upstream 502 reply. -/
theorem C7_error_forwarded_verbatim_witness :
    dispatchUpstreamResponse false respW7 =
      UpstreamHandling.errorForward (forwardErrorResponse respW7) ∧
    (forwardErrorResponse respW7).status = respW7.status ∧
    (forwardErrorResponse respW7).body = respW7.body ∧
    getHeader (forwardErrorResponse respW7).headers "Content-Type" = some ["application/json"] ∧
    getHeader (forwardErrorResponse respW7).headers "X-Request-Id" =
      getHeader respW7.headers "X-Request-Id" := by
  have h := C7_error_forwarded_verbatim false respW7 (by decide)
  exact ⟨h.1, h.2.1, h.2.2.1, h.2.2.2.1, h.2.2.2.2 "X-Request-Id" (by decide)⟩

/-- C8 counterexample: an authorized non-OPTIONS request whose path /status is
outside the /v1/ prefix but whose body does not parse as JSON is answered with
status 400 (the handler parses the body before checking the path), not the
claimed 404. -/
theorem C8_counterexample :
    Outcome.statusCode (proxyHandlerCore exampleConfig r8bad) = some 400 ∧
    Outcome.statusCode (proxyHandlerCore exampleConfig r8bad) ≠ some 404 := by
  decide

/-- C8 (amended): an authorized non-OPTIONS request whose body parses as a
chat request and whose path does not start with the /v1/ prefix is answered
with status 404 Not found. -/
theorem C8_off_prefix_not_found (cfg : Config) (r : HttpRequest) (c : ChatRequest)
    (hm : r.method ≠ "OPTIONS")
    (ha1 : strStarts "Bearer " r.authHeader = true)
    (ha2 : strDrop r.authHeader 7 = cfg.apiKey)
    (hb : r.body = some c)
    (hp : strStarts "/v1/" r.path = false) :
    proxyHandlerCore cfg r = Outcome.errorResponse 404 "Not found\n" := by
  have hnm : r.path ≠ "/v1/models" := by
    intro hEq
    have hval : strStarts "/v1/" "/v1/models" = true := by decide
    rw [hEq, hval] at hp
    exact Bool.noConfusion hp
  simp [proxyHandlerCore, hm, ha1, ha2, hb, hp, hnm]

/-- Witness for C8 at a concrete authorized request with parseable body and
path /api/generate. -/
theorem C8_off_prefix_not_found_witness :
    proxyHandlerCore exampleConfig r8w = Outcome.errorResponse 404 "Not found\n" :=
  C8_off_prefix_not_found exampleConfig r8w c6body (by decide) (by decide) (by decide)
    rfl (by decide)

/-- C9: Refuted on the code.  handleStreamingResponse serializes nothing: the
heartbeat goroutine and the relay loop write to the same client connection
with no lock, so among the schedulable interleavings of their write events
there is one in which the heartbeat write lands strictly inside a payload
line write, violating the claimed mutual exclusion. -/
theorem C9_heartbeat_can_split_line :
    (StreamWriteEvent.lineStart 0 :: StreamWriteEvent.hbStart :: StreamWriteEvent.hbEnd ::
        StreamWriteEvent.lineEnd 0 :: []) ∈
      interleavings heartbeatEvents (lineWriteEvents 1) ∧
    violatesExclusion
        (StreamWriteEvent.lineStart 0 :: StreamWriteEvent.hbStart :: StreamWriteEvent.hbEnd ::
          StreamWriteEvent.lineEnd 0 :: []) = true := by
  decide

/-- C10: convertMessages preserves length and converts element i to element i;
a message that is neither function-role nor assistant-with-tool-calls is
returned unchanged; an assistant message with tool calls changes only the tool
calls' type field (forced to function, id and function payload kept); a
function-role message changes only its role (rewritten to tool). -/
theorem C10_convertMessages_frame (messages : List Message) :
    (convertMessages messages).length = messages.length ∧
    (∀ i : Nat, (convertMessages messages)[i]? = (messages[i]?).map convertMessage) ∧
    (∀ m : Message, m.role ≠ "function" →
      ¬(m.role = "assistant" ∧ 0 < m.toolCalls.length) → convertMessage m = m) ∧
    (∀ m : Message, m.role = "assistant" → 0 < m.toolCalls.length →
      convertMessage m =
        { m with toolCalls := m.toolCalls.map (fun tc => { tc with type := "function" }) }) ∧
    (∀ m : Message, m.role = "function" → convertMessage m = { m with role := "tool" }) := by
  refine ⟨List.length_map .., fun i => List.getElem?_map .., ?_, ?_, ?_⟩
  · intro m h1 h2
    simp [convertMessage, h1, h2]
  · intro m h1 h2
    simp [convertMessage, h1, h2]
  · intro m h1
    simp [convertMessage, h1]

/-- Witness for C10 on a user message and a function-role message. -/
theorem C10_convertMessages_frame_witness :
    convertMessage mUser = mUser ∧
    convertMessage mFunc = { mFunc with role := "tool" } := by
  have h := C10_convertMessages_frame []
  exact ⟨h.2.2.1 mUser (by decide) (by decide), h.2.2.2.2 mFunc rfl⟩

end CursorProxy
